import Mathlib

/-!
Verification of the DnD_Sound soundboard's playback/session manager and
persistence adapter against its natural-language specification.

The development shallowly embeds the JavaScript classes `AudioEngine` and
`SoundboardApp` (app.js, the folder-aware revision) and `StorageManager`
(storage.js, schema version 3).  JavaScript `Map` objects are embedded as
association lists with unique-key `Map` semantics: `lookupA` is `Map.get`,
`setA` is `Map.set` (update in place when the key is present, append
otherwise), `eraseA` is `Map.delete`.  JavaScript numbers that the claims
depend on (times, durations, volumes, gains, source ids) are embedded as
rationals; the claims never exercise floating-point rounding.  Fallible
operations (a JavaScript `TypeError` on an `undefined` dereference) return
`Option`, with `none` for the thrown exception.
-/

namespace DnDSound

/-- Raw encoded audio bytes (the contents of a Blob / ArrayBuffer). -/
abbrev Bytes := List Nat

/-- Lookup in an association list, first binding wins; embeds `Map.get`. -/
def lookupA {κ α : Type} [DecidableEq κ] (k : κ) : List (κ × α) → Option α
  | [] => none
  | p :: rest => if p.1 = k then some p.2 else lookupA k rest

/-- Remove every binding of a key; embeds `Map.delete` (association lists
with unique keys hold at most one such binding). -/
def eraseA {κ α : Type} [DecidableEq κ] (k : κ) : List (κ × α) → List (κ × α)
  | [] => []
  | p :: rest => if p.1 = k then eraseA k rest else p :: eraseA k rest

/-- Set a key to a value: update in place when present, append otherwise;
embeds `Map.set`. -/
def setA {κ α : Type} [DecidableEq κ] (k : κ) (v : α) (l : List (κ × α)) : List (κ × α) :=
  if (lookupA k l).isSome then
    l.map (fun p => if p.1 = k then (k, v) else p)
  else
    l ++ [(k, v)]

/-- Truncation toward zero of a rational, as JavaScript division-based
truncation behaves on finite values. -/
def jsTrunc (q : ℚ) : ℤ := Int.tdiv q.num (q.den : ℤ)

/-- The JavaScript `%` operator on finite numbers with a nonzero divisor:
a remainder with the sign of the dividend, `a - b * trunc (a / b)`. -/
def jsMod (a b : ℚ) : ℚ := a - b * (jsTrunc (a / b) : ℚ)

/-- The JavaScript `||` idiom on a string field: the empty string is falsy
and is replaced by the default. -/
def jsStrOr (s d : String) : String := if s = "" then d else s

/-- The JavaScript `||` idiom on a possibly-absent string field: absent
(`undefined`/`null`) and the empty string are falsy. -/
def jsOptStrOr (x : Option String) (d : String) : String :=
  match x with
  | none => d
  | some s => jsStrOr s d

/-- The JavaScript `||` idiom on a numeric field: `0` is falsy. -/
def jsRatOr (q d : ℚ) : ℚ := if q = 0 then d else q

/-- The JavaScript `||` idiom on a possibly-absent numeric field. -/
def jsOptRatOr (x : Option ℚ) (d : ℚ) : ℚ :=
  match x with
  | none => d
  | some q => jsRatOr q d

/-- The expression `folder.parentId || null`: any falsy value collapses to
`null`; `none` embeds both `null` and an absent field. -/
def jsOrNull (x : Option String) : Option String :=
  match x with
  | none => none
  | some s => if s = "" then none else some s

/-! ## Data model of the `AudioEngine` (app.js) -/

/-- A live `AudioBufferSourceNode`: the decoded buffer it holds (by
identity), the buffer duration, its loop flag, the offset passed to
`start`, and whether `stop` has been called on it. -/
structure SourceNode where
  buffer : Nat
  bufferDuration : ℚ
  loop : Bool
  startOffset : ℚ
  stopped : Bool
  deriving Repr, DecidableEq

/-- A live `GainNode`: its `gain.value`. -/
structure GainNode where
  gain : ℚ
  deriving Repr, DecidableEq

/-- An entry of `AudioEngine.sounds` (the clip registry): decoded buffer
identity and duration, display name, volume, loop flag, folder assignment,
retained raw bytes, and file name. -/
structure Sound where
  buffer : Nat
  duration : ℚ
  name : String
  volume : ℚ
  loop : Bool
  folderId : String
  blob : Option Bytes
  fileName : String
  deriving Repr, DecidableEq

/-- An entry of `AudioEngine.folders`. -/
structure Folder where
  id : String
  name : String
  color : String
  icon : String
  deriving Repr, DecidableEq

/-- An entry of `AudioEngine.activeSources` (one playback session). -/
structure ActiveSound where
  source : SourceNode
  gainNode : GainNode
  soundId : String
  paused : Bool
  startTime : ℚ
  pausedTime : ℚ
  folderId : String
  deriving Repr, DecidableEq

/-- The mutable state of one `AudioEngine` instance.  Source ids are the
numbers `Date.now() + Math.random()`; times are `audioContext.currentTime`
readings, passed explicitly to each operation that reads the clock. -/
structure EngineState where
  sounds : List (String × Sound)
  activeSources : List (ℚ × ActiveSound)
  masterVolume : ℚ
  folders : List (String × Folder)
  deriving Repr, DecidableEq

/-- AudioEngine.playSound (app.js): a miss in the registry returns `null`
with no state change; otherwise a new source/gain pair is wired with gain
`sound.volume * masterVolume`, started at offset 0, and registered under a
fresh source id.  The fresh id `sid` and clock reading `now` are passed in. -/
def playSound (st : EngineState) (now sid : ℚ) (id : String) : Option ℚ × EngineState :=
  match lookupA id st.sounds with
  | none => (none, st)
  | some sound =>
    let source : SourceNode :=
      { buffer := sound.buffer, bufferDuration := sound.duration,
        loop := sound.loop, startOffset := 0, stopped := false }
    let gainNode : GainNode := { gain := sound.volume * st.masterVolume }
    let act : ActiveSound :=
      { source := source, gainNode := gainNode, soundId := id, paused := false,
        startTime := now, pausedTime := 0, folderId := sound.folderId }
    (some sid, { st with activeSources := setA sid act st.activeSources })

/-- AudioEngine.stopSound (app.js): when the session exists, stop its
source (exceptions swallowed by the try/catch) and delete the entry;
otherwise do nothing. -/
def stopSound (st : EngineState) (sid : ℚ) : EngineState :=
  match lookupA sid st.activeSources with
  | none => st
  | some _ => { st with activeSources := eraseA sid st.activeSources }

/-- The `onended` completion callback registered for non-looping sources:
deletes the session from the active map. -/
def naturalEnd (st : EngineState) (sid : ℚ) : EngineState :=
  { st with activeSources := eraseA sid st.activeSources }

/-- AudioEngine.pauseSound (app.js): only when the session exists and is
not paused, mark it paused, record `pausedTime = currentTime - startTime`,
and stop the current source node. -/
def pauseSound (st : EngineState) (now sid : ℚ) : EngineState :=
  match lookupA sid st.activeSources with
  | none => st
  | some a =>
    if a.paused then st
    else
      let a2 : ActiveSound :=
        { a with paused := true, pausedTime := now - a.startTime,
                 source := { a.source with stopped := true } }
      { st with activeSources := setA sid a2 st.activeSources }

/-- AudioEngine.resumeSound (app.js): only when the session exists and is
paused, re-read the clip from the registry, build a fresh source/gain
pair, start it at `pausedTime % buffer.duration`, and mark the session
playing with `startTime = currentTime - pausedTime`.  When the clip is no
longer registered, `sounds.get` yields `undefined` and the very next field
access throws; the thrown `TypeError` is embedded as `none`. -/
def resumeSound (st : EngineState) (now sid : ℚ) : Option EngineState :=
  match lookupA sid st.activeSources with
  | none => some st
  | some a =>
    if a.paused then
      match lookupA a.soundId st.sounds with
      | none => none
      | some sound =>
        let newSource : SourceNode :=
          { buffer := sound.buffer, bufferDuration := sound.duration,
            loop := sound.loop,
            startOffset := jsMod a.pausedTime sound.duration, stopped := false }
        let gainNode : GainNode := { gain := sound.volume * st.masterVolume }
        let a2 : ActiveSound :=
          { a with source := newSource, gainNode := gainNode, paused := false,
                   startTime := now - a.pausedTime }
        some { st with activeSources := setA sid a2 st.activeSources }
    else some st

/-- AudioEngine.setVolume (app.js): when the session exists, write the new
volume onto the referenced clip in the registry and set that session's
gain node to `volume * masterVolume` (the `if (activeSound.gainNode)`
guard always holds: every session is created with a gain node).  When the
session exists but its clip is gone, `sound.volume = volume` throws on
`undefined`, embedded as `none`.  The storage flush is modelled separately. -/
def setVolume (st : EngineState) (sid : ℚ) (v : ℚ) : Option EngineState :=
  match lookupA sid st.activeSources with
  | none => some st
  | some a =>
    match lookupA a.soundId st.sounds with
    | none => none
    | some sound =>
      let a2 : ActiveSound := { a with gainNode := { gain := v * st.masterVolume } }
      some { st with
               sounds := setA a.soundId { sound with volume := v } st.sounds,
               activeSources := setA sid a2 st.activeSources }

/-- AudioEngine.deleteFolder (app.js): the default folder is rejected;
otherwise delete the folder and reassign every sound referencing it to
the default folder. -/
def deleteFolder (st : EngineState) (folderId : String) : Bool × EngineState :=
  if folderId = "default" then (false, st)
  else
    (true,
     { st with
         folders := eraseA folderId st.folders,
         sounds := st.sounds.map (fun p =>
           (p.1, if p.2.folderId = folderId then { p.2 with folderId := "default" } else p.2)) })

/-- The registry removal `this.audioEngine.sounds.delete(soundId)`
performed by SoundboardApp.deleteSound: it touches only the clip
registry. -/
def soundsDeleteFromRegistry (st : EngineState) (id : String) : EngineState :=
  { st with sounds := eraseA id st.sounds }

/-- Modelled from the spec: the rescaling of one session's gain to
`clipVolume × m`; a session whose clip is no longer registered is left
with its current gain. -/
def rescaleEntry (sounds : List (String × Sound)) (m : ℚ) (a : ActiveSound) : ActiveSound :=
  match lookupA a.soundId sounds with
  | some s => { a with gainNode := { gain := s.volume * m } }
  | none => a

/-- Modelled from the spec: no `setMasterVolume` method exists under
src/ — the source only declares the `masterVolume` field in the
`AudioEngine` constructor and multiplies it into every gain computation.
Modelled from the spec sentence: "rescales every active session's
effective gain to `clipVolume × volume`; does not change any stored Clip
volume." -/
def setMasterVolume (st : EngineState) (m : ℚ) : EngineState :=
  { st with
      masterVolume := m,
      activeSources := st.activeSources.map (fun p => (p.1, rescaleEntry st.sounds m p.2)) }

/-! ## Data model of the `SoundboardApp` layer (app.js) -/

/-- The app-level state that SoundboardApp.deleteSound touches: the engine,
the ids tracked in `loadedSounds`, and the `activeSounds` map from sound id
to the source id of that clip's (at most one) UI-level session. -/
structure AppState where
  engine : EngineState
  loadedSounds : List String
  activeSounds : List (String × ℚ)
  deriving Repr, DecidableEq

/-- SoundboardApp.stopSound (app.js): when the clip has a tracked session,
stop it in the engine and drop the tracking entry. -/
def appStopSound (a : AppState) (soundId : String) : AppState :=
  match lookupA soundId a.activeSounds with
  | none => a
  | some sourceId =>
    { a with
        engine := stopSound a.engine sourceId,
        activeSounds := eraseA soundId a.activeSounds }

/-- SoundboardApp.deleteSound (app.js): stop the clip's session, then
delete the clip from the engine registry and from `loadedSounds` (the
storage flush and re-render are outside this state). -/
def appDeleteSound (a : AppState) (soundId : String) : AppState :=
  let a1 := appStopSound a soundId
  { a1 with
      engine := soundsDeleteFromRegistry a1.engine soundId,
      loadedSounds := a1.loadedSounds.filter (fun x => decide (x ≠ soundId)) }

/-! ## Data model of the `StorageManager` (storage.js, schema version 3) -/

/-- A record of the durable `sounds` object store.  `color` and `icon` may
be absent in records written by schema versions before 2; `none` embeds an
absent field, `some ""` an empty (falsy but present) one. -/
structure StoredSound where
  id : String
  name : String
  volume : ℚ
  loop : Bool
  folderId : String
  audioData : Option Bytes
  fileName : String
  color : Option String
  icon : Option String
  deriving Repr, DecidableEq

/-- A record of the durable `folders` object store.  `parentId` and `order`
may be absent in records written by schema versions before 3; for
`parentId`, `none` embeds both `null` and an absent field. -/
structure FolderRecord where
  id : String
  name : String
  color : String
  icon : String
  parentId : Option String
  order : Option ℚ
  deriving Repr, DecidableEq

/-- The durable collections the round-trip claims range over. -/
structure StoreDB where
  folders : List FolderRecord
  sounds : List StoredSound
  deriving Repr, DecidableEq

/-- The version-2 migration body (storage.js `onupgradeneeded`, cursor over
the `sounds` store): `sound.color = sound.color || default`,
`sound.icon = sound.icon || default`. -/
def migrateSoundV2 (r : StoredSound) : StoredSound :=
  { r with
      color := some (jsOptStrOr r.color "#6c5ce7"),
      icon := some (jsOptStrOr r.icon "🎵") }

/-- The version-3 migration body (storage.js `onupgradeneeded`, cursor over
the `folders` store): `folder.parentId = folder.parentId || null`,
`folder.order = folder.order || 0`. -/
def migrateFolderV3 (f : FolderRecord) : FolderRecord :=
  { f with
      parentId := jsOrNull f.parentId,
      order := some (jsOptRatOr f.order 0) }

/-- Both migration cursors applied to the whole store. -/
def applyMigrations (db : StoreDB) : StoreDB :=
  { db with
      sounds := db.sounds.map migrateSoundV2,
      folders := db.folders.map migrateFolderV3 }

/-- The in-memory value shape produced by StorageManager.loadSounds
(storage.js): falsy stored fields are replaced by defaults, and the stored
bytes are wrapped back into a Blob. -/
structure LoadedSound where
  name : String
  volume : ℚ
  loop : Bool
  folderId : String
  blob : Option Bytes
  fileName : String
  color : String
  icon : String
  deriving Repr, DecidableEq

/-- StorageManager.loadSounds (storage.js), per record: note
`soundData.volume || 1.0` and `soundData.folderId || 'default'`, which
replace the falsy values `0` and `""`. -/
def loadSoundRecord (r : StoredSound) : LoadedSound :=
  { name := r.name,
    volume := jsRatOr r.volume 1,
    loop := r.loop,
    folderId := jsStrOr r.folderId "default",
    blob := r.audioData,
    fileName := r.fileName,
    color := jsOptStrOr r.color "#6c5ce7",
    icon := jsOptStrOr r.icon "🎵" }

/-- An element of the `sounds` array of an export/import document: id,
metadata, a Blob (`some` embeds a real Blob holding these bytes, `none`
the value null), file name, color, icon, and inlined raw bytes. -/
structure ExportSound where
  id : String
  name : String
  volume : ℚ
  loop : Bool
  folderId : String
  blob : Option Bytes
  fileName : String
  color : String
  icon : String
  audioData : Option Bytes
  deriving Repr, DecidableEq

/-- The document shape named by StorageManager.exportData: version tag,
folder records, and sound records with inlined bytes. -/
structure ExportDoc where
  version : Nat
  folders : List FolderRecord
  sounds : List ExportSound
  deriving Repr, DecidableEq

/-- StorageManager.exportData (storage.js): the method body places
`await this.blobToArrayBuffer(...)` inside a non-async `.map` arrow
function, which is a JavaScript SyntaxError — the method can never parse,
so no call to it can produce a document.  Every invocation fails; `none`
embeds the failure. -/
def exportData : StoreDB → Option ExportDoc := fun _ => none

/-- StorageManager.saveSounds (storage.js) applied to one imported
record: `audioData: sound.blob ? this.blobToArrayBuffer(sound.blob) :
null` assigns, without `await`, the Promise returned by
blobToArrayBuffer whenever the blob is truthy.  A Promise cannot be
structured-cloned, so the IndexedDB `put` throws DataCloneError and the
save rejects (`none`); only a record whose blob is null is storable, and
it is stored with `audioData` null. -/
def saveExportSound (e : ExportSound) : Option StoredSound :=
  match e.blob with
  | some _ => none
  | none =>
    some { id := e.id, name := e.name, volume := e.volume, loop := e.loop,
           folderId := e.folderId, audioData := none, fileName := e.fileName,
           color := some (jsStrOr e.color "#6c5ce7"),
           icon := some (jsStrOr e.icon "🎵") }

/-- StorageManager.importData (storage.js): replaces both durable
collections (`clear` then `put` each record keyed by id); folder records
are clonable and always store, while the sound store rejects as soon as
one record carries a Blob (see `saveExportSound`).  The cleared-then-
failed partial durable state is beyond the Option embedding of the
failure. -/
def importData (doc : ExportDoc) : Option StoreDB :=
  (doc.sounds.mapM saveExportSound).map
    (fun sounds => { folders := doc.folders, sounds := sounds })

/-- The round trip `importSnapshot(exportSnapshot())` of the spec, over
the fallible source pipeline. -/
def roundTrip (db : StoreDB) : Option StoreDB := (exportData db).bind importData

/-! ## Concrete sample states -/

/-- A registered clip of duration 2. -/
def wSound : Sound :=
  { buffer := 1, duration := 2, name := "drum", volume := 1, loop := false,
    folderId := "default", blob := some [7], fileName := "drum.mp3" }

/-- The live source node of the sample playing session. -/
def wNode : SourceNode :=
  { buffer := 1, bufferDuration := 2, loop := false, startOffset := 0, stopped := false }

/-- The live gain node of the sample playing session. -/
def wGain : GainNode := { gain := 1 }

/-- A session playing clip "a" since time 0. -/
def wPlaying : ActiveSound :=
  { source := wNode, gainNode := wGain, soundId := "a", paused := false,
    startTime := 0, pausedTime := 0, folderId := "default" }

/-- The session of `wPlaying` after a pause at time 1. -/
def wPaused : ActiveSound :=
  { wPlaying with paused := true, pausedTime := 1,
                  source := { wNode with stopped := true } }

/-- The default folder created by `initDefaultFolders`. -/
def wFolder : Folder :=
  { id := "default", name := "Все звуки", color := "#6c5ce7", icon := "📁" }

/-- An engine with one registered clip "a" and one playing session 5. -/
def wState : EngineState :=
  { sounds := [("a", wSound)], activeSources := [(5, wPlaying)],
    masterVolume := 1, folders := [("default", wFolder)] }

/-- The same engine with session 5 paused (pausedTime 1). -/
def wStatePaused : EngineState :=
  { wState with activeSources := [(5, wPaused)] }

/-- A second, non-default folder. -/
def wFolder2 : Folder :=
  { id := "folder_1", name := "Combat", color := "#ff6b6b", icon := "⚔️" }

/-- A looping clip assigned to the non-default folder. -/
def wSound2 : Sound :=
  { buffer := 2, duration := 3, name := "clash", volume := 1, loop := true,
    folderId := "folder_1", blob := some [9], fileName := "clash.mp3" }

/-- An engine with two clips and two folders, no active sessions. -/
def wState2 : EngineState :=
  { sounds := [("a", wSound), ("b", wSound2)], activeSources := [],
    masterVolume := 1, folders := [("default", wFolder), ("folder_1", wFolder2)] }

/-- An app state tracking the paused session 5 of clip "a". -/
def wApp : AppState :=
  { engine := wStatePaused, loadedSounds := ["a"], activeSounds := [("a", 5)] }

/-- A stored sound record with no falsy field. -/
def wStored : StoredSound :=
  { id := "s1", name := "drum", volume := 1, loop := false, folderId := "default",
    audioData := some [7], fileName := "drum.mp3",
    color := some "#6c5ce7", icon := some "🎵" }

/-- A stored folder record. -/
def wFolderRec : FolderRecord :=
  { id := "default", name := "Все звуки", color := "#6c5ce7", icon := "📁",
    parentId := none, order := some 0 }

/-- A durable store with one folder and one well-formed sound. -/
def wDB : StoreDB := { folders := [wFolderRec], sounds := [wStored] }

/-- An import-document sound record carrying a real Blob of audio bytes. -/
def wExport : ExportSound :=
  { id := "s1", name := "drum", volume := 1, loop := false, folderId := "default",
    blob := some [7], fileName := "drum.mp3", color := "#6c5ce7", icon := "🎵",
    audioData := some [7] }

/-! ## Helper lemmas -/

theorem lookupA_eraseA_self {κ α : Type} [DecidableEq κ] (k : κ) (l : List (κ × α)) :
    lookupA k (eraseA k l) = none := by
  induction l with
  | nil => rfl
  | cons p rest ih =>
    by_cases h : p.1 = k
    · simpa [eraseA, h] using ih
    · simpa [eraseA, lookupA, h] using ih

theorem lookupA_eraseA_ne {κ α : Type} [DecidableEq κ] {k k2 : κ} (l : List (κ × α))
    (h : k2 ≠ k) : lookupA k2 (eraseA k l) = lookupA k2 l := by
  induction l with
  | nil => rfl
  | cons p rest ih =>
    have hk2 : ¬ k = k2 := fun hc => h hc.symm
    by_cases hp : p.1 = k
    · have hp2 : ¬ p.1 = k2 := by
        rw [hp]; exact hk2
      simp [eraseA, lookupA, hp, hp2, hk2, ih]
    · by_cases hq : p.1 = k2
      · simp [eraseA, lookupA, hp, hq, h]
      · simp [eraseA, lookupA, hp, hq, ih]

theorem lookupA_mapUpdate_self {κ α : Type} [DecidableEq κ] (k : κ) (v : α)
    (l : List (κ × α)) (h : (lookupA k l).isSome) :
    lookupA k (l.map (fun p => if p.1 = k then (k, v) else p)) = some v := by
  induction l with
  | nil => simp [lookupA] at h
  | cons p rest ih =>
    by_cases hp : p.1 = k
    · simp [lookupA, hp]
    · simp only [lookupA, hp, if_false] at h
      simp [lookupA, hp, ih h]

theorem lookupA_mapUpdate_ne {κ α : Type} [DecidableEq κ] {k k2 : κ} (v : α)
    (l : List (κ × α)) (h : k2 ≠ k) :
    lookupA k2 (l.map (fun p => if p.1 = k then (k, v) else p)) = lookupA k2 l := by
  induction l with
  | nil => rfl
  | cons p rest ih =>
    have hk2 : ¬ k = k2 := fun hc => h hc.symm
    by_cases hp : p.1 = k
    · have hp2 : ¬ p.1 = k2 := by rw [hp]; exact hk2
      simp [lookupA, hp, hk2, hp2, ih]
    · by_cases hq : p.1 = k2
      · simp [lookupA, hp, hq, h]
      · simp [lookupA, hp, hq, ih]

theorem lookupA_appendSingle_self {κ α : Type} [DecidableEq κ] (k : κ) (v : α)
    (l : List (κ × α)) (h : lookupA k l = none) :
    lookupA k (l ++ [(k, v)]) = some v := by
  induction l with
  | nil => simp [lookupA]
  | cons p rest ih =>
    by_cases hp : p.1 = k
    · simp [lookupA, hp] at h
    · simp only [lookupA, hp, if_false] at h
      simp [lookupA, hp, ih h]

theorem lookupA_appendSingle_ne {κ α : Type} [DecidableEq κ] {k k2 : κ} (v : α)
    (l : List (κ × α)) (h : k2 ≠ k) :
    lookupA k2 (l ++ [(k, v)]) = lookupA k2 l := by
  induction l with
  | nil =>
    have hk2 : ¬ k = k2 := fun hc => h hc.symm
    simp [lookupA, hk2]
  | cons p rest ih =>
    by_cases hq : p.1 = k2
    · simp [lookupA, hq]
    · simp [lookupA, hq, ih]

theorem lookupA_setA_self {κ α : Type} [DecidableEq κ] (k : κ) (v : α) (l : List (κ × α)) :
    lookupA k (setA k v l) = some v := by
  unfold setA
  by_cases h : (lookupA k l).isSome
  · simpa [h] using lookupA_mapUpdate_self k v l h
  · have hn : lookupA k l = none := by
      cases hl : lookupA k l with
      | none => rfl
      | some x => rw [hl] at h; simp at h
    simpa [h] using lookupA_appendSingle_self k v l hn

theorem lookupA_setA_ne {κ α : Type} [DecidableEq κ] {k k2 : κ} (v : α) (l : List (κ × α))
    (h : k2 ≠ k) : lookupA k2 (setA k v l) = lookupA k2 l := by
  unfold setA
  by_cases hs : (lookupA k l).isSome
  · simpa [hs] using lookupA_mapUpdate_ne v l h
  · simpa [hs] using lookupA_appendSingle_ne v l h

/-- Lookup after a key-preserving value map. -/
theorem lookupA_mapVal {κ α : Type} [DecidableEq κ] (k : κ) (f : κ → α → α)
    (l : List (κ × α)) :
    lookupA k (l.map (fun p => (p.1, f p.1 p.2))) = (lookupA k l).map (f k) := by
  induction l with
  | nil => rfl
  | cons p rest ih =>
    by_cases hp : p.1 = k
    · subst hp; simp [lookupA]
    · simp [lookupA, hp, ih]

/-- On nonnegative arguments, truncation toward zero agrees with the
floor. -/
theorem jsTrunc_eq_floor {q : ℚ} (hq : 0 ≤ q) : jsTrunc q = ⌊q⌋ := by
  unfold jsTrunc
  rw [Int.tdiv_eq_ediv (Rat.num_nonneg.mpr hq) (Int.natCast_nonneg _)]
  exact Rat.floor_def.symm

/-- For a nonnegative dividend and positive divisor, the JavaScript `%`
is the mathematical remainder `a mod b = a - b * floor (a / b)`. -/
theorem jsMod_eq_floor {a b : ℚ} (ha : 0 ≤ a) (hb : 0 < b) :
    jsMod a b = a - b * (⌊a / b⌋ : ℤ) := by
  unfold jsMod
  rw [jsTrunc_eq_floor (div_nonneg ha hb.le)]

/-! ## Computation lemmas for the engine operations -/

theorem pauseSound_eq (st : EngineState) (now sid : ℚ) (a : ActiveSound)
    (h1 : lookupA sid st.activeSources = some a) (h2 : a.paused = false) :
    pauseSound st now sid =
      { st with activeSources :=
          (setA sid
            ({ a with paused := true, pausedTime := now - a.startTime,
                      source := { a.source with stopped := true } })
            st.activeSources) } := by
  unfold pauseSound
  rw [h1]
  simp [h2]

theorem resumeSound_eq (st : EngineState) (now sid : ℚ) (a : ActiveSound) (s : Sound)
    (h1 : lookupA sid st.activeSources = some a) (h2 : a.paused = true)
    (h3 : lookupA a.soundId st.sounds = some s) :
    resumeSound st now sid =
      some { st with activeSources :=
        (setA sid
          ({ a with
              source :=
                { buffer := s.buffer, bufferDuration := s.duration, loop := s.loop,
                  startOffset := jsMod a.pausedTime s.duration, stopped := false },
              gainNode := { gain := s.volume * st.masterVolume },
              paused := false,
              startTime := now - a.pausedTime })
          st.activeSources) } := by
  unfold resumeSound
  rw [h1]
  simp only [h2, if_true]
  rw [h3]

theorem resumeSound_missingClip (st : EngineState) (now sid : ℚ) (a : ActiveSound)
    (h1 : lookupA sid st.activeSources = some a) (h2 : a.paused = true)
    (h3 : lookupA a.soundId st.sounds = none) :
    resumeSound st now sid = none := by
  unfold resumeSound
  rw [h1]
  simp only [h2, if_true]
  rw [h3]

theorem setVolume_eq (st : EngineState) (sid v : ℚ) (a : ActiveSound) (s : Sound)
    (h1 : lookupA sid st.activeSources = some a)
    (h2 : lookupA a.soundId st.sounds = some s) :
    setVolume st sid v =
      some { st with
               sounds := (setA a.soundId ({ s with volume := v }) st.sounds),
               activeSources :=
                 (setA sid ({ a with gainNode := { gain := v * st.masterVolume } })
                   st.activeSources) } := by
  unfold setVolume
  rw [h1]
  dsimp only
  rw [h2]

theorem playSound_eq (st : EngineState) (now sid : ℚ) (id : String) (s : Sound)
    (h : lookupA id st.sounds = some s) :
    playSound st now sid id =
      (some sid,
       { st with activeSources :=
           (setA sid
             ({ source :=
                  { buffer := s.buffer, bufferDuration := s.duration, loop := s.loop,
                    startOffset := 0, stopped := false },
                gainNode := { gain := s.volume * st.masterVolume },
                soundId := id, paused := false, startTime := now, pausedTime := 0,
                folderId := s.folderId })
             st.activeSources) }) := by
  unfold playSound
  rw [h]

/-- Re-defaulting an already-defaulted string field changes nothing. -/
theorem jsStrOr_opt_idem (x : Option String) (d : String) :
    jsStrOr (jsOptStrOr x d) d = jsOptStrOr x d := by
  cases x with
  | none =>
    unfold jsOptStrOr jsStrOr
    split <;> rfl
  | some s =>
    unfold jsOptStrOr jsStrOr
    by_cases hs : s = ""
    · simp only [hs, if_true]
      split <;> rfl
    · simp only [hs, if_false]

/-- Collapsing a parent id to null twice changes nothing. -/
theorem jsOrNull_idem (x : Option String) : jsOrNull (jsOrNull x) = jsOrNull x := by
  cases x with
  | none => rfl
  | some s =>
    unfold jsOrNull
    by_cases hs : s = ""
    · simp [hs]
    · simp [hs]

/-- Re-defaulting a numeric field against the default 0 changes nothing. -/
theorem jsRatOr_zero (q : ℚ) : jsRatOr q 0 = q := by
  unfold jsRatOr
  by_cases hq : q = 0
  · simp [hq]
  · simp [hq]

/-! ## Claim theorems -/

/-- C1: for every active session in the Playing state, `pauseSound`
records the elapsed time `now - startTime`, stops (releases) the current
source node, and keeps the entry alive in the active map in the Paused
state, touching nothing else; pausing a session already in the Paused
state is a no-op. -/
theorem pause_keeps_session_and_records_elapsed (st : EngineState) (now sid : ℚ) :
    (∀ a, lookupA sid st.activeSources = some a → a.paused = false →
      lookupA sid (pauseSound st now sid).activeSources =
        some { a with paused := true, pausedTime := now - a.startTime,
                      source := { a.source with stopped := true } } ∧
      (∀ sid2, sid2 ≠ sid →
        lookupA sid2 (pauseSound st now sid).activeSources = lookupA sid2 st.activeSources) ∧
      (pauseSound st now sid).sounds = st.sounds ∧
      (pauseSound st now sid).masterVolume = st.masterVolume ∧
      (pauseSound st now sid).folders = st.folders) ∧
    (∀ a, lookupA sid st.activeSources = some a → a.paused = true →
      pauseSound st now sid = st) := by
  constructor
  · intro a ha hp
    have hps : pauseSound st now sid =
        { st with activeSources :=
            (setA sid
              ({ a with paused := true, pausedTime := now - a.startTime,
                        source := { a.source with stopped := true } })
              st.activeSources) } := by
      unfold pauseSound
      rw [ha]
      simp [hp]
    refine ⟨?_, ?_, ?_, ?_, ?_⟩
    · rw [hps]; exact lookupA_setA_self _ _ _
    · intro sid2 hne; rw [hps]; exact lookupA_setA_ne _ _ hne
    · rw [hps]
    · rw [hps]
    · rw [hps]
  · intro a ha hp
    unfold pauseSound
    rw [ha]
    simp [hp]

/-- Witness for C1: the sample playing session, paused at time 4. -/
theorem pause_keeps_session_witness :
    lookupA (5 : ℚ) ((pauseSound wState 4 5).activeSources) =
      some { wPlaying with paused := true, pausedTime := 4 - wPlaying.startTime,
                           source := { wPlaying.source with stopped := true } } :=
  ((pause_keeps_session_and_records_elapsed wState 4 5).1 wPlaying
    (by decide) (by decide)).1

/-- C8: stopping a session twice is the same as stopping it once, and a
stop on a session id absent from the active map (already stopped or
already naturally ended) is a no-op leaving the state unchanged; the
embedding is total, as the source's try/catch swallows the only possible
platform error. -/
theorem stopSound_idempotent (st : EngineState) (sid : ℚ) :
    stopSound (stopSound st sid) sid = stopSound st sid ∧
    (lookupA sid st.activeSources = none → stopSound st sid = st) := by
  constructor
  · cases hl : lookupA sid st.activeSources with
    | none => simp [stopSound, hl]
    | some a =>
      have h1 : stopSound st sid =
          { st with activeSources := eraseA sid st.activeSources } := by
        simp [stopSound, hl]
      rw [h1]
      simp [stopSound, lookupA_eraseA_self]
  · intro h
    simp [stopSound, h]

/-- Witness for C8: double stop of the sample session, and a stop on the
absent session id 7. -/
theorem stopSound_idempotent_witness :
    stopSound (stopSound wState 5) 5 = stopSound wState 5 ∧ stopSound wState 7 = wState :=
  ⟨(stopSound_idempotent wState 5).1, (stopSound_idempotent wState 7).2 (by decide)⟩

/-- C9: playing a clip id that is not registered returns the sentinel
`null` and leaves the whole state — registry and active-session map —
unchanged, raising nothing. -/
theorem playSound_unregistered_silent (st : EngineState) (now sid : ℚ) (id : String)
    (h : lookupA id st.sounds = none) :
    playSound st now sid id = (none, st) := by
  simp [playSound, h]

/-- Witness for C9: the id "zzz" is not registered in the sample engine. -/
theorem playSound_unregistered_witness : playSound wState 0 9 "zzz" = (none, wState) :=
  playSound_unregistered_silent wState 0 9 "zzz" (by decide)

/-- C2: a session playing a clip of duration D, paused after playing for
time T (`T = now1 - startTime`) and then resumed, gets a fresh source/gain
pair (distinct from the stopped one released by the pause), continues at
offset `T mod D` — equal to the mathematical remainder
`T - D * floor (T / D)` — and transitions back to the Playing state with
`startTime = now2 - T`. -/
theorem pause_resume_continues_at_offset (st : EngineState) (sid now1 now2 T : ℚ)
    (a : ActiveSound) (s : Sound)
    (h1 : lookupA sid st.activeSources = some a)
    (h2 : a.paused = false)
    (h3 : lookupA a.soundId st.sounds = some s)
    (hT : now1 - a.startTime = T)
    (hT0 : 0 ≤ T) (hD : 0 < s.duration) :
    ∃ st2 a2, resumeSound (pauseSound st now1 sid) now2 sid = some st2 ∧
      lookupA sid st2.activeSources = some a2 ∧
      a2.paused = false ∧
      a2.source.startOffset = jsMod T s.duration ∧
      a2.source.startOffset = T - s.duration * (⌊T / s.duration⌋ : ℤ) ∧
      a2.source.stopped = false ∧
      a2.source.buffer = s.buffer ∧
      a2.gainNode.gain = s.volume * st.masterVolume ∧
      a2.startTime = now2 - T ∧
      (∀ ap, lookupA sid (pauseSound st now1 sid).activeSources = some ap →
        a2.source ≠ ap.source) := by
  subst hT
  have hps := pauseSound_eq st now1 sid a h1 h2
  have hlookP : lookupA sid (pauseSound st now1 sid).activeSources =
      some ({ a with paused := true, pausedTime := now1 - a.startTime,
                     source := { a.source with stopped := true } }) := by
    rw [hps]; exact lookupA_setA_self _ _ _
  have hres := resumeSound_eq (pauseSound st now1 sid) now2 sid
      ({ a with paused := true, pausedTime := now1 - a.startTime,
                source := { a.source with stopped := true } }) s hlookP rfl
      (by rw [hps]; exact h3)
  refine ⟨_, _, hres, lookupA_setA_self _ _ _, rfl, rfl, ?_, rfl, rfl, ?_, rfl, ?_⟩
  · exact jsMod_eq_floor hT0 hD
  · rw [hps]
  · intro ap hap hsrc
    rw [hlookP] at hap
    have hap2 := Option.some.inj hap
    have hstop := congrArg SourceNode.stopped hsrc
    rw [← hap2] at hstop
    simp at hstop

/-- Witness for C2: the sample session, paused at time 1 (T = 1) and
resumed at time 3; the clip has duration 2, so the resume offset is
`1 mod 2 = 1`. -/
theorem pause_resume_continues_at_offset_witness :
    ((resumeSound (pauseSound wState 1 5) 3 5).bind
      (fun st2 => lookupA (5 : ℚ) st2.activeSources)).map
        (fun a2 => (a2.paused, a2.source.startOffset, a2.source.stopped, a2.startTime)) =
      some (false, 1, false, 2) := by
  obtain ⟨st2, a2, hres, hlook, hpaused, hoff, _, hstop, _, _, hstart, _⟩ :=
    pause_resume_continues_at_offset wState 5 1 3 1 wPlaying wSound
      (by decide) (by decide) (by decide) (by norm_num [wPlaying]) (by norm_num)
      (by norm_num [wSound])
  rw [hres]
  show (lookupA (5 : ℚ) st2.activeSources).map _ = _
  rw [hlook]
  show some (a2.paused, a2.source.startOffset, a2.source.stopped, a2.startTime) = _
  rw [hpaused, hoff, hstop, hstart]
  have hd : wSound.duration = 2 := rfl
  rw [hd, jsMod_eq_floor (by norm_num) (by norm_num)]
  norm_num

/-- C10: `setVolume(sourceId, v)` writes `v` into the referenced clip's
stored volume and updates the live gain of that one session only; every
other registry entry and every other session's live gain is unchanged, and
a rebuild of any other session of the same clip — a resume of a paused
one, or a new play — picks up the new clip volume `v` in its gain. -/
theorem setVolume_updates_one_session (st : EngineState) (sid v : ℚ)
    (a : ActiveSound) (s : Sound)
    (h1 : lookupA sid st.activeSources = some a)
    (h2 : lookupA a.soundId st.sounds = some s) :
    ∀ st2, setVolume st sid v = some st2 →
      lookupA a.soundId st2.sounds = some ({ s with volume := v }) ∧
      (∀ id2, id2 ≠ a.soundId → lookupA id2 st2.sounds = lookupA id2 st.sounds) ∧
      lookupA sid st2.activeSources =
        some ({ a with gainNode := { gain := v * st.masterVolume } }) ∧
      (∀ sid2, sid2 ≠ sid → lookupA sid2 st2.activeSources = lookupA sid2 st.activeSources) ∧
      (∀ sid2 a2, sid2 ≠ sid → lookupA sid2 st.activeSources = some a2 →
        a2.soundId = a.soundId → a2.paused = true → ∀ now,
        ((resumeSound st2 now sid2).bind (fun st3 => lookupA sid2 st3.activeSources)).map
          (fun a3 => a3.gainNode.gain) = some (v * st.masterVolume)) ∧
      (∀ now nsid,
        (lookupA nsid ((playSound st2 now nsid a.soundId).2).activeSources).map
          (fun a3 => a3.gainNode.gain) = some (v * st.masterVolume)) := by
  intro st2 hst2
  rw [setVolume_eq st sid v a s h1 h2] at hst2
  obtain rfl := Option.some.inj hst2
  refine ⟨lookupA_setA_self _ _ _, ?_, lookupA_setA_self _ _ _, ?_, ?_, ?_⟩
  · intro id2 hne
    exact lookupA_setA_ne _ _ hne
  · intro sid2 hne
    exact lookupA_setA_ne _ _ hne
  · intro sid2 a2 hne ha2 hsnd hpause now
    have hl2 : lookupA sid2
        ((setA sid ({ a with gainNode := { gain := v * st.masterVolume } })
          st.activeSources)) = some a2 := by
      rw [lookupA_setA_ne _ _ hne]; exact ha2
    have hs2 : lookupA a2.soundId
        ((setA a.soundId ({ s with volume := v }) st.sounds)) =
        some ({ s with volume := v }) := by
      rw [hsnd]; exact lookupA_setA_self _ _ _
    rw [resumeSound_eq _ now sid2 a2 ({ s with volume := v }) hl2 hpause hs2]
    show (lookupA sid2 (setA sid2 _ _)).map _ = _
    rw [lookupA_setA_self]
    rfl
  · intro now nsid
    have hsp : lookupA a.soundId
        ((setA a.soundId ({ s with volume := v }) st.sounds)) =
        some ({ s with volume := v }) := lookupA_setA_self _ _ _
    rw [playSound_eq _ now nsid a.soundId ({ s with volume := v }) hsp]
    show (lookupA nsid (setA nsid _ _)).map _ = _
    rw [lookupA_setA_self]
    rfl

/-- Witness for C10: setting volume 2 on the sample session 5 makes its
live gain 2 times the master volume. -/
theorem setVolume_updates_one_session_witness :
    ((setVolume wState 5 2).bind (fun st2 => lookupA (5 : ℚ) st2.activeSources)) =
      some ({ wPlaying with gainNode := { gain := 2 * wState.masterVolume } }) := by
  have heq := setVolume_eq wState 5 2 wPlaying wSound (by decide) (by decide)
  obtain ⟨-, -, h3, -, -, -⟩ :=
    setVolume_updates_one_session wState 5 2 wPlaying wSound (by decide) (by decide) _ heq
  rw [heq]
  show lookupA (5 : ℚ) _ = _
  exact h3

/-- C3: with `setMasterVolume` modelled from the spec (no such method
exists in the source), `setMasterVolume(m)` applied after
`setVolume(sid, v)` leaves every stored clip volume unchanged and makes
every active session's effective gain its clip volume times `m` — in
particular `v * m` for the session whose volume was set. -/
theorem setMasterVolume_rescales (st : EngineState) (sid v m : ℚ)
    (a : ActiveSound) (s : Sound)
    (h1 : lookupA sid st.activeSources = some a)
    (h2 : lookupA a.soundId st.sounds = some s) :
    ∀ st2, setVolume st sid v = some st2 →
      (setMasterVolume st2 m).sounds = st2.sounds ∧
      (setMasterVolume st2 m).masterVolume = m ∧
      (lookupA sid (setMasterVolume st2 m).activeSources).map (fun a2 => a2.gainNode.gain)
        = some (v * m) ∧
      (∀ sid2 a2 s2, lookupA sid2 st2.activeSources = some a2 →
        lookupA a2.soundId st2.sounds = some s2 →
        (lookupA sid2 (setMasterVolume st2 m).activeSources).map (fun a3 => a3.gainNode.gain)
          = some (s2.volume * m)) := by
  intro st2 hst2
  rw [setVolume_eq st sid v a s h1 h2] at hst2
  obtain rfl := Option.some.inj hst2
  have hgen : ∀ sid2 a2 s2,
      lookupA sid2 ({ st with
        sounds := (setA a.soundId ({ s with volume := v }) st.sounds),
        activeSources :=
          (setA sid ({ a with gainNode := { gain := v * st.masterVolume } })
            st.activeSources) } : EngineState).activeSources = some a2 →
      lookupA a2.soundId (setA a.soundId ({ s with volume := v }) st.sounds) = some s2 →
      (lookupA sid2 (setMasterVolume ({ st with
        sounds := (setA a.soundId ({ s with volume := v }) st.sounds),
        activeSources :=
          (setA sid ({ a with gainNode := { gain := v * st.masterVolume } })
            st.activeSources) } : EngineState) m).activeSources).map
        (fun a3 => a3.gainNode.gain) = some (s2.volume * m) := by
    intro sid2 a2 s2 ha2 hs2
    have hmv : lookupA sid2 (setMasterVolume ({ st with
        sounds := (setA a.soundId ({ s with volume := v }) st.sounds),
        activeSources :=
          (setA sid ({ a with gainNode := { gain := v * st.masterVolume } })
            st.activeSources) } : EngineState) m).activeSources
        = (lookupA sid2 ((setA sid
            ({ a with gainNode := { gain := v * st.masterVolume } })
            st.activeSources))).map
            (rescaleEntry ((setA a.soundId ({ s with volume := v }) st.sounds)) m) :=
      lookupA_mapVal sid2
        (fun _ a3 =>
          rescaleEntry ((setA a.soundId ({ s with volume := v }) st.sounds)) m a3)
        ((setA sid ({ a with gainNode := { gain := v * st.masterVolume } })
          st.activeSources))
    rw [hmv, ha2]
    dsimp only [Option.map]
    unfold rescaleEntry
    rw [hs2]
  refine ⟨rfl, rfl, ?_, hgen⟩
  have h3 := hgen sid ({ a with gainNode := { gain := v * st.masterVolume } })
    ({ s with volume := v }) (lookupA_setA_self _ _ _) (lookupA_setA_self _ _ _)
  exact h3

/-- Witness for C3: after setting volume 2 on session 5 and master volume
3, the session's effective gain is 6. -/
theorem setMasterVolume_rescales_witness :
    ((setVolume wState 5 2).bind
      (fun st2 => lookupA (5 : ℚ) (setMasterVolume st2 3).activeSources)).map
        (fun a2 => a2.gainNode.gain) = some 6 := by
  have heq := setVolume_eq wState 5 2 wPlaying wSound (by decide) (by decide)
  obtain ⟨-, -, h3, -⟩ :=
    setMasterVolume_rescales wState 5 2 3 wPlaying wSound (by decide) (by decide) _ heq
  rw [heq]
  show (lookupA (5 : ℚ) (setMasterVolume _ 3).activeSources).map (fun a2 => a2.gainNode.gain)
    = some 6
  rw [h3]
  norm_num

/-- C7: deleting a non-default folder succeeds, removes that folder, and
reassigns every clip that referenced it to the default folder while
leaving other clips as they were; deleting the default folder is rejected
(returns false) and changes nothing; and when the default folder exists
and every clip's folder reference is valid, every clip's folder reference
is still valid after any deleteFolder call. -/
theorem deleteFolder_reassigns_to_default (st : EngineState) (fid : String) :
    (fid ≠ "default" →
      (deleteFolder st fid).1 = true ∧
      lookupA fid (deleteFolder st fid).2.folders = none ∧
      (∀ f2, f2 ≠ fid → lookupA f2 (deleteFolder st fid).2.folders = lookupA f2 st.folders) ∧
      (∀ id s, lookupA id st.sounds = some s →
        lookupA id (deleteFolder st fid).2.sounds =
          some (if s.folderId = fid then { s with folderId := "default" } else s))) ∧
    (fid = "default" → deleteFolder st fid = (false, st)) ∧
    ((lookupA "default" st.folders).isSome →
      (∀ p, p ∈ st.sounds → (lookupA p.2.folderId st.folders).isSome) →
      ∀ p, p ∈ (deleteFolder st fid).2.sounds →
        (lookupA p.2.folderId (deleteFolder st fid).2.folders).isSome) := by
  refine ⟨?_, ?_, ?_⟩
  · intro hfid
    have hd : deleteFolder st fid =
        (true,
         { st with
             folders := eraseA fid st.folders,
             sounds := st.sounds.map (fun p =>
               (p.1, if p.2.folderId = fid then { p.2 with folderId := "default" }
                     else p.2)) }) := by
      unfold deleteFolder
      rw [if_neg hfid]
    refine ⟨by rw [hd], by rw [hd]; exact lookupA_eraseA_self _ _, ?_, ?_⟩
    · intro f2 hne
      rw [hd]
      exact lookupA_eraseA_ne _ hne
    · intro id s hs
      rw [hd]
      have hmap : lookupA id (st.sounds.map (fun p =>
          (p.1, if p.2.folderId = fid then { p.2 with folderId := "default" }
                else p.2))) =
          (lookupA id st.sounds).map (fun s2 =>
            if s2.folderId = fid then { s2 with folderId := "default" } else s2) :=
        lookupA_mapVal id
          (fun _ s2 => if s2.folderId = fid then { s2 with folderId := "default" } else s2)
          st.sounds
      rw [hmap, hs]
      rfl
  · intro hfid
    unfold deleteFolder
    rw [if_pos hfid]
  · intro hdef hval p hp
    by_cases hfid : fid = "default"
    · have hd : deleteFolder st fid = (false, st) := by
        unfold deleteFolder
        rw [if_pos hfid]
      rw [hd] at hp ⊢
      exact hval p hp
    · have hd : deleteFolder st fid =
          (true,
           { st with
               folders := eraseA fid st.folders,
               sounds := st.sounds.map (fun p =>
                 (p.1, if p.2.folderId = fid then { p.2 with folderId := "default" }
                       else p.2)) }) := by
        unfold deleteFolder
        rw [if_neg hfid]
      rw [hd] at hp ⊢
      obtain ⟨q, hq, rfl⟩ := List.mem_map.mp hp
      by_cases hqf : q.2.folderId = fid
      · have hne : ¬ ("default" : String) = fid := fun hc => hfid hc.symm
        show (lookupA (if q.2.folderId = fid then { q.2 with folderId := "default" }
          else q.2).folderId (eraseA fid st.folders)).isSome
        rw [if_pos hqf]
        show (lookupA "default" (eraseA fid st.folders)).isSome
        rw [lookupA_eraseA_ne _ hne]
        exact hdef
      · show (lookupA (if q.2.folderId = fid then { q.2 with folderId := "default" }
          else q.2).folderId (eraseA fid st.folders)).isSome
        rw [if_neg hqf]
        rw [lookupA_eraseA_ne _ hqf]
        exact hval q hq

/-- Witness for C7: deleting "folder_1" from the two-folder engine
succeeds, removes it, reassigns clip "b" to the default folder, keeps the
default-folder reference valid, and deleting "default" is rejected. -/
theorem deleteFolder_reassigns_witness :
    (deleteFolder wState2 "folder_1").1 = true ∧
    lookupA "folder_1" (deleteFolder wState2 "folder_1").2.folders = none ∧
    lookupA "b" (deleteFolder wState2 "folder_1").2.sounds =
      some ({ wSound2 with folderId := "default" }) ∧
    (lookupA "default" (deleteFolder wState2 "folder_1").2.folders).isSome ∧
    deleteFolder wState2 "default" = (false, wState2) := by
  obtain ⟨hret, hgone, -, hsounds⟩ :=
    (deleteFolder_reassigns_to_default wState2 "folder_1").1 (by decide)
  have h3 := hsounds "b" wSound2 (by decide)
  rw [if_pos (by decide : wSound2.folderId = "folder_1")] at h3
  have hinv := (deleteFolder_reassigns_to_default wState2 "folder_1").2.2
    (by decide) (by decide)
  have h4 := hinv ("b", { wSound2 with folderId := "default" }) (by decide)
  exact ⟨hret, hgone, h3,
    h4, (deleteFolder_reassigns_to_default wState2 "default").2.1 rfl⟩

/-- Counterexample for C4: in the sample app state the paused session 5
of clip "a" exists, yet the app-level deleteSound removes it from the
active map, and even a bare registry removal breaks resume: resumeSound
on the kept session throws (returns the embedded exception) because it
re-reads the deleted clip from the registry. -/
theorem clipRemoval_affects_sessions_cex :
    lookupA (5 : ℚ) wApp.engine.activeSources = some wPaused ∧
    lookupA (5 : ℚ) (appDeleteSound wApp "a").engine.activeSources = none ∧
    resumeSound (soundsDeleteFromRegistry wStatePaused "a") 3 5 = none := by
  refine ⟨by decide, by decide, by decide⟩

/-- C4 amended: a registry removal by itself (`sounds.delete`) leaves
every active-session entry unchanged — so in-progress playback, whose
source node holds the decoded buffer, is unaffected — but resume of a
session paused before the removal fails (resumeSound re-reads the clip
from the registry, which throws on the deleted id), and the app-level
deleteSound additionally stops that clip's own tracked session, removing
it from the active map. -/
theorem registryRemoval_keeps_sessions_but_resume_fails (st : EngineState) (id : String)
    (now sid : ℚ) (a : ActiveSound)
    (h1 : lookupA sid st.activeSources = some a)
    (h2 : a.soundId = id) (h3 : a.paused = true) :
    (soundsDeleteFromRegistry st id).activeSources = st.activeSources ∧
    lookupA sid (soundsDeleteFromRegistry st id).activeSources = some a ∧
    lookupA id (soundsDeleteFromRegistry st id).sounds = none ∧
    resumeSound (soundsDeleteFromRegistry st id) now sid = none ∧
    (∀ app : AppState, app.engine = st → lookupA id app.activeSounds = some sid →
      lookupA sid (appDeleteSound app id).engine.activeSources = none) := by
  refine ⟨rfl, h1, lookupA_eraseA_self _ _, ?_, ?_⟩
  · exact resumeSound_missingClip (soundsDeleteFromRegistry st id) now sid a h1 h3
      (by show lookupA a.soundId (eraseA id st.sounds) = none
          rw [h2]
          exact lookupA_eraseA_self _ _)
  · intro app happ hlook
    unfold appDeleteSound appStopSound
    rw [hlook]
    show lookupA sid (soundsDeleteFromRegistry (stopSound app.engine sid) id).activeSources
      = none
    show lookupA sid (stopSound app.engine sid).activeSources = none
    rw [happ]
    unfold stopSound
    rw [h1]
    exact lookupA_eraseA_self _ _

/-- Witness for C4 (amended): the bare registry removal of clip "a" keeps
the paused session 5, its resume then fails, and the app-level deleteSound
removes the session. -/
theorem registryRemoval_keeps_sessions_witness :
    lookupA (5 : ℚ) (soundsDeleteFromRegistry wStatePaused "a").activeSources = some wPaused ∧
    resumeSound (soundsDeleteFromRegistry wStatePaused "a") 3 5 = none ∧
    lookupA (5 : ℚ) (appDeleteSound wApp "a").engine.activeSources = none := by
  obtain ⟨-, hkeep, -, hfail, happ⟩ :=
    registryRemoval_keeps_sessions_but_resume_fails wStatePaused "a" 3 5 wPaused
      (by decide) (by decide) (by decide)
  exact ⟨hkeep, hfail, happ wApp rfl (by decide)⟩

/-- C5 (code bug): evaluated at the concrete one-folder one-sound store,
the round trip `importSnapshot(exportSnapshot())` fails instead of
reproducing the store — `exportData` can never produce a document (its
body puts `await` inside a non-async `.map` arrow, a SyntaxError) — and,
independently, a byte-bearing imported record can never be saved
(`saveSounds` stores the unawaited blobToArrayBuffer Promise, which the
IndexedDB `put` cannot clone), so audio bytes are never persisted. -/
theorem roundTrip_cannot_run :
    roundTrip wDB = none ∧ saveExportSound wExport = none :=
  ⟨rfl, rfl⟩

/-- C6: the version-2 sound migration and the version-3 folder migration
are idempotent on every record, and applying both to the whole store twice
equals applying them once: each step only fills absent or falsy fields,
and a field it has filled is never falsy again. -/
theorem migrations_idempotent :
    (∀ r : StoredSound, migrateSoundV2 (migrateSoundV2 r) = migrateSoundV2 r) ∧
    (∀ f : FolderRecord, migrateFolderV3 (migrateFolderV3 f) = migrateFolderV3 f) ∧
    (∀ db : StoreDB, applyMigrations (applyMigrations db) = applyMigrations db) := by
  have hsound : ∀ r : StoredSound, migrateSoundV2 (migrateSoundV2 r) = migrateSoundV2 r := by
    intro r
    unfold migrateSoundV2
    dsimp only
    rw [show jsOptStrOr (some (jsOptStrOr r.color "#6c5ce7")) "#6c5ce7"
          = jsStrOr (jsOptStrOr r.color "#6c5ce7") "#6c5ce7" from rfl,
        show jsOptStrOr (some (jsOptStrOr r.icon "🎵")) "🎵"
          = jsStrOr (jsOptStrOr r.icon "🎵") "🎵" from rfl,
        jsStrOr_opt_idem, jsStrOr_opt_idem]
  have hfolder : ∀ f : FolderRecord, migrateFolderV3 (migrateFolderV3 f) = migrateFolderV3 f := by
    intro f
    unfold migrateFolderV3
    dsimp only
    rw [jsOrNull_idem,
        show jsOptRatOr (some (jsOptRatOr f.order 0)) 0
          = jsRatOr (jsOptRatOr f.order 0) 0 from rfl,
        jsRatOr_zero]
  refine ⟨hsound, hfolder, ?_⟩
  intro db
  unfold applyMigrations
  dsimp only
  rw [List.map_map, List.map_map,
      show migrateSoundV2 ∘ migrateSoundV2 = migrateSoundV2 from funext hsound,
      show migrateFolderV3 ∘ migrateFolderV3 = migrateFolderV3 from funext hfolder]

end DnDSound
